import Mathlib

/-!
# GLFWsecond: `application.cpp`

A shallow embedding of `game::createProgram` and of `game::Application`
(`Run`, `Init`, `InitWindow`, `Update`) from `src/application.cpp`.

The program is a sequence of calls into three external collaborators (the file
system, the OpenGL driver, GLFW/GLEW) and of writes to `std::cerr`.  Each
function of the source becomes a Lean function that returns its C++ return value
(or `none` when it does not return) together with the list of events it
performed, in program order.  Everything the
outside world answers (file contents, handles, status values, info logs, the
answers of `glfwWindowShouldClose`, clock readings) is read from an `Env`
record, so the functions are total and executable.
-/

namespace game

/-! ## Data model -/

/-- OpenGL object name (`GLuint`).  No arithmetic is performed on handles. -/
abbrev GLuint := Nat

/-- Signed OpenGL integer (`GLint`, `GLsizei`). -/
abbrev GLint := Int

/-- The value `GL_FALSE`. -/
def GL_FALSE : GLint := 0

/-- The value `GL_TRUE`. -/
def GL_TRUE : GLint := 1

/-- The value `GLEW_OK`. -/
def GLEW_OK : Int := 0

/-- The null window pointer. -/
def nullptr : Nat := 0

/-- Shader stage selector: `GL_VERTEX_SHADER` or `GL_FRAGMENT_SHADER`. -/
inductive ShaderType where
  | GL_VERTEX_SHADER
  | GL_FRAGMENT_SHADER
  deriving DecidableEq, Repr

/-- Parameter names used with `glGetShaderiv` and `glGetProgramiv`. -/
inductive PName where
  | GL_COMPILE_STATUS
  | GL_LINK_STATUS
  | GL_INFO_LOG_LENGTH
  deriving DecidableEq, Repr

/-- Calls into the OpenGL driver made by `application.cpp`, with their arguments.
For `glShaderSource`, `source` is the `std::string` whose `c_str()` is passed. -/
inductive GLCall where
  | glCreateProgram
  | glCreateShader (type : ShaderType)
  | glShaderSource (shader : GLuint) (source : String)
  | glCompileShader (shader : GLuint)
  | glAttachShader (program shader : GLuint)
  | glGetShaderiv (shader : GLuint) (pname : PName)
  | glGetShaderInfoLog (shader : GLuint) (bufSize : GLint)
  | glDeleteShader (shader : GLuint)
  | glLinkProgram (program : GLuint)
  | glGetProgramiv (program : GLuint) (pname : PName)
  | glGetProgramInfoLog (program : GLuint) (bufSize : GLint)
  | glClear
  | glUseProgram (program : GLuint)
  deriving DecidableEq, Repr

/-- Window hints set by `InitWindow`. -/
inductive Hint where
  | GLFW_CONTEXT_VERSION_MAJOR
  | GLFW_CONTEXT_VERSION_MINOR
  | GLFW_OPENGL_FORWARD_COMPAT
  | GLFW_OPENGL_PROFILE
  deriving DecidableEq, Repr

/-- Values passed to `glfwWindowHint`. -/
inductive HintValue where
  | num (n : Nat)
  | GL_TRUE
  | GLFW_OPENGL_CORE_PROFILE
  deriving DecidableEq, Repr

/-- Calls into GLFW and GLEW made by `application.cpp`, with their arguments. -/
inductive HostCall where
  | glfwSetErrorCallback
  | glfwInit
  | glfwWindowHint (hint : Hint) (value : HintValue)
  | glfwCreateWindow (width height : Nat) (title : String)
  | glfwMakeContextCurrent (window : Nat)
  | glewInit
  | glfwSwapInterval (interval : Nat)
  | glfwSetTime
  | glfwWindowShouldClose (window : Nat)
  | glfwGetTime
  | glfwSwapBuffers (window : Nat)
  | glfwPollEvents
  | glfwTerminate
  deriving DecidableEq, Repr

/-- Calls into the `Mesh` class.  `Mesh` is not part of `application.cpp`: the
handle `Mesh::CreateTriangleMesh` returns is a parameter of the run
(`Env.triangleMesh`), and its two operations are recorded as atomic events. -/
inductive MeshCall where
  | CreateTriangleMesh
  | Draw (mesh : Nat)
  deriving DecidableEq, Repr

/-- Which object an info log printed on `std::cerr` was fetched from. -/
inductive LogOwner where
  | vertexShader
  | fragmentShader
  | program
  deriving DecidableEq, Repr

/-- One `std::cerr << ... << std::endl` statement of `application.cpp`.  The
statement behind `cantRead` (lines 25 and 42) is unreachable, see `createProgram`. -/
inductive ErrLine where
  | cantOpen (file : String)
  | cantRead (file : String)
  | compileErrorVertex
  | compileErrorFragment
  | linkError
  | infoLog (owner : LogOwner) (text : String)
  | initializationError
  | errorInitWindow
  | cantCreateWindow
  | cantInitializeGlew
  deriving DecidableEq, Repr

/-- The characters an `ErrLine` puts on `std::cerr` (before the line break). -/
def ErrLine.text : ErrLine → String
  | .cantOpen file => "Error: Can't open source file: " ++ file
  | .cantRead file => "Error: Can't read source file: " ++ file
  | .compileErrorVertex => "Compile Error in Vertex Shader."
  | .compileErrorFragment => "Compile Error in Fragment Shader."
  | .linkError => "Link Error."
  | .infoLog _ text => text
  | .initializationError => "Initialization error..."
  | .errorInitWindow => "Error: InitWindow"
  | .cantCreateWindow => "Can't create GLFW window."
  | .cantInitializeGlew => "Can't initialize GLEW."

/-- One observable step of the program. -/
inductive Event where
  | openFile (file : String)
  | readFile (file : String)
  | gl (call : GLCall)
  | host (call : HostCall)
  | mesh (call : MeshCall)
  | err (line : ErrLine)
  deriving DecidableEq, Repr

/-- Outcome of opening a file with `std::ifstream` and reading it to the end
through `std::istreambuf_iterator`.
* `openFail`: the stream does not open, `fail()` holds after construction.
* `readFail`: the stream opens and reading its buffer fails.  The iterator reads
  the stream buffer directly and never changes the stream state, so the failure
  surfaces as the `std::ios_base::failure` the buffer raises, not through `fail()`.
* `ok content`: the stream opens and the read delivers `content`. -/
inductive FileRead where
  | openFail
  | readFail
  | ok (content : String)
  deriving DecidableEq, Repr

/-- Whether the file could be opened and read. -/
def FileRead.readable : FileRead → Bool
  | .ok _ => true
  | _ => false

/-- Everything the outside world answers during one run.  Every `glGet...iv`
query stores a value in its out-parameter (`status`, `infoLogLength`); the field
for that query is the value stored.  An info-log field is the text the driver
puts in the buffer, as `operator<<` prints it. -/
structure Env where
  /-- the file system: result of opening and reading the file at a path -/
  files : String → FileRead
  /-- value returned by `glCreateProgram` -/
  program : GLuint
  /-- value returned by `glCreateShader(GL_VERTEX_SHADER)` -/
  vertexShaderObj : GLuint
  /-- `GL_COMPILE_STATUS` reported for the vertex stage -/
  vertexCompileStatus : GLint
  /-- `GL_INFO_LOG_LENGTH` reported for the vertex stage -/
  vertexInfoLogLength : GLint
  /-- text `glGetShaderInfoLog` stores for the vertex stage -/
  vertexInfoLog : String
  /-- value returned by `glCreateShader(GL_FRAGMENT_SHADER)` -/
  fragmentShaderObj : GLuint
  /-- `GL_COMPILE_STATUS` reported for the fragment stage -/
  fragmentCompileStatus : GLint
  /-- `GL_INFO_LOG_LENGTH` reported for the fragment stage -/
  fragmentInfoLogLength : GLint
  /-- text `glGetShaderInfoLog` stores for the fragment stage -/
  fragmentInfoLog : String
  /-- `GL_LINK_STATUS` reported for the program -/
  linkStatus : GLint
  /-- `GL_INFO_LOG_LENGTH` reported for the program -/
  programInfoLogLength : GLint
  /-- text `glGetProgramInfoLog` stores for the program -/
  programInfoLog : String
  /-- value returned by `glfwInit` -/
  glfwInitResult : Int
  /-- pointer returned by `glfwCreateWindow` (`nullptr` on failure) -/
  createdWindow : Nat
  /-- value returned by `glewInit` -/
  glewInitResult : Int
  /-- handle of the mesh returned by `Mesh::CreateTriangleMesh` -/
  triangleMesh : Nat
  /-- successive answers of `glfwWindowShouldClose` -/
  shouldClose : List Int
  /-- successive readings of `glfwGetTime` -/
  clock : Nat → Float

/-- The member variables of `Application`. -/
structure Application where
  window_ : Nat
  program_ : GLuint
  triangle_ : Nat

/-! ## `createProgram` -/

/-- `GLuint createProgram(std::string vertexShaderFile, std::string fragmentShaderFile)`:
`some` of the returned handle, or `none` when an exception leaves the function,
and the events performed.

The `fail()` tests that follow the two reads (lines 24 and 41) repeat the tests
that follow the two opens, because `std::istreambuf_iterator` never changes the
stream state; their branches ("Can't read source file", `return 0`) cannot be
taken.  A failing read raises `std::ios_base::failure` from the stream buffer,
and `createProgram` has no handler, so the exception leaves it. -/
def createProgram (env : Env) (vertexShaderFile fragmentShaderFile : String) :
    Option GLuint × List Event :=
  match env.files vertexShaderFile with
  | .openFail =>
    (some 0, [.openFile vertexShaderFile, .err (.cantOpen vertexShaderFile)])
  | .readFail =>
    (none, [.openFile vertexShaderFile, .readFile vertexShaderFile])
  | .ok vertexShaderSource =>
    match env.files fragmentShaderFile with
    | .openFail =>
      (some 0, [.openFile vertexShaderFile, .readFile vertexShaderFile,
           .openFile fragmentShaderFile, .err (.cantOpen fragmentShaderFile)])
    | .readFail =>
      (none, [.openFile vertexShaderFile, .readFile vertexShaderFile,
           .openFile fragmentShaderFile, .readFile fragmentShaderFile])
    | .ok fragmentShaderSource =>
      let program := env.program
      let vertexShaderObj := env.vertexShaderObj
      let fragmentShaderObj := env.fragmentShaderObj
      (some program,
        [.openFile vertexShaderFile, .readFile vertexShaderFile,
         .openFile fragmentShaderFile, .readFile fragmentShaderFile,
         .gl .glCreateProgram,
         .gl (.glCreateShader .GL_VERTEX_SHADER),
         .gl (.glShaderSource vertexShaderObj vertexShaderSource),
         .gl (.glCompileShader vertexShaderObj),
         .gl (.glAttachShader program vertexShaderObj),
         .gl (.glGetShaderiv vertexShaderObj .GL_COMPILE_STATUS)]
        ++ (if env.vertexCompileStatus = GL_FALSE then [.err .compileErrorVertex] else [])
        ++ [.gl (.glGetShaderiv vertexShaderObj .GL_INFO_LOG_LENGTH)]
        ++ (if env.vertexInfoLogLength > 1 then
              [.gl (.glGetShaderInfoLog vertexShaderObj env.vertexInfoLogLength),
               .err (.infoLog .vertexShader env.vertexInfoLog)]
            else [])
        ++ [.gl (.glDeleteShader vertexShaderObj),
            .gl (.glCreateShader .GL_FRAGMENT_SHADER),
            .gl (.glShaderSource fragmentShaderObj fragmentShaderSource),
            .gl (.glCompileShader fragmentShaderObj),
            .gl (.glAttachShader program fragmentShaderObj),
            .gl (.glGetShaderiv fragmentShaderObj .GL_COMPILE_STATUS)]
        ++ (if env.fragmentCompileStatus = GL_FALSE then [.err .compileErrorFragment] else [])
        ++ [.gl (.glGetShaderiv fragmentShaderObj .GL_INFO_LOG_LENGTH)]
        ++ (if env.fragmentInfoLogLength > 1 then
              [.gl (.glGetShaderInfoLog fragmentShaderObj env.fragmentInfoLogLength),
               .err (.infoLog .fragmentShader env.fragmentInfoLog)]
            else [])
        ++ [.gl (.glDeleteShader fragmentShaderObj),
            .gl (.glLinkProgram program),
            .gl (.glGetProgramiv program .GL_LINK_STATUS)]
        ++ (if env.linkStatus = GL_FALSE then [.err .linkError] else [])
        ++ [.gl (.glGetProgramiv program .GL_INFO_LOG_LENGTH)]
        ++ (if env.programInfoLogLength > 1 then
              [.gl (.glGetProgramInfoLog program env.programInfoLogLength),
               .err (.infoLog .program env.programInfoLog)]
            else []))

/-! ## `Application` -/

/-- `void Application::Update(const double delta_time)`. -/
def Update (app : Application) (_delta_time : Float) : List Event :=
  [.gl .glClear, .gl (.glUseProgram app.program_), .mesh (.Draw app.triangle_)]

/-- `bool Application::InitWindow(const GLuint width, const GLuint height)`:
the return value, the object afterwards, and the events performed. -/
def InitWindow (env : Env) (app : Application) (width height : Nat) :
    Bool × Application × List Event :=
  if env.glfwInitResult = 0 then
    (false, app, [.host .glfwSetErrorCallback, .host .glfwInit])
  else
    let app1 : Application := { app with window_ := env.createdWindow }
    if app1.window_ = nullptr then
      (false, app1,
        [.host .glfwSetErrorCallback, .host .glfwInit,
         .host (.glfwWindowHint .GLFW_CONTEXT_VERSION_MAJOR (.num 4)),
         .host (.glfwWindowHint .GLFW_CONTEXT_VERSION_MINOR (.num 1)),
         .host (.glfwWindowHint .GLFW_OPENGL_FORWARD_COMPAT .GL_TRUE),
         .host (.glfwWindowHint .GLFW_OPENGL_PROFILE .GLFW_OPENGL_CORE_PROFILE),
         .host (.glfwCreateWindow width height "Window1"),
         .err .cantCreateWindow])
    else if env.glewInitResult ≠ GLEW_OK then
      (false, app1,
        [.host .glfwSetErrorCallback, .host .glfwInit,
         .host (.glfwWindowHint .GLFW_CONTEXT_VERSION_MAJOR (.num 4)),
         .host (.glfwWindowHint .GLFW_CONTEXT_VERSION_MINOR (.num 1)),
         .host (.glfwWindowHint .GLFW_OPENGL_FORWARD_COMPAT .GL_TRUE),
         .host (.glfwWindowHint .GLFW_OPENGL_PROFILE .GLFW_OPENGL_CORE_PROFILE),
         .host (.glfwCreateWindow width height "Window1"),
         .host (.glfwMakeContextCurrent app1.window_),
         .host .glewInit,
         .err .cantInitializeGlew])
    else
      (true, app1,
        [.host .glfwSetErrorCallback, .host .glfwInit,
         .host (.glfwWindowHint .GLFW_CONTEXT_VERSION_MAJOR (.num 4)),
         .host (.glfwWindowHint .GLFW_CONTEXT_VERSION_MINOR (.num 1)),
         .host (.glfwWindowHint .GLFW_OPENGL_FORWARD_COMPAT .GL_TRUE),
         .host (.glfwWindowHint .GLFW_OPENGL_PROFILE .GLFW_OPENGL_CORE_PROFILE),
         .host (.glfwCreateWindow width height "Window1"),
         .host (.glfwMakeContextCurrent app1.window_),
         .host .glewInit,
         .host (.glfwSwapInterval 1)])

/-- `bool Application::Init()`: `some` of the return value, or `none` when the
exception raised in `createProgram` leaves `Init` (it has no handler), the
object afterwards, and the events performed. -/
def Init (env : Env) (app : Application) : Option Bool × Application × List Event :=
  let width := 640
  let height := 480
  match InitWindow env app width height with
  | (false, app1, t1) => (some false, app1, t1 ++ [.err .errorInitWindow])
  | (true, app1, t1) =>
    match createProgram env "shader.vert" "shader.frag" with
    | (none, t2) => (none, app1, t1 ++ t2)
    | (some program, t2) =>
      let app2 : Application := { app1 with program_ := program }
      let app3 : Application := { app2 with triangle_ := env.triangleMesh }
      (some true, app3, t1 ++ t2 ++ [.mesh .CreateTriangleMesh])

/-- The `while` loop of `Application::Run`, driven by the successive answers of
`glfwWindowShouldClose`.  `tick` counts the clock readings taken so far.  The
result is `true` when the loop was left, and `false` when the answers ran out
with the loop still running. -/
def Run.loop (env : Env) (app : Application) :
    List Int → Float → Nat → Bool × List Event
  | [], _, _ => (false, [])
  | answer :: rest, prev_time, tick =>
    if answer = GL_FALSE then
      let time := env.clock tick
      let delta_time := time - prev_time
      let prev_time := time
      let later := Run.loop env app rest prev_time (tick + 1)
      (later.1,
        [.host (.glfwWindowShouldClose app.window_), .host .glfwGetTime]
        ++ Update app delta_time
        ++ [.host (.glfwSwapBuffers app.window_), .host .glfwPollEvents]
        ++ later.2)
    else
      (true, [.host (.glfwWindowShouldClose app.window_)])

/-- `bool Application::Run()`: `some b` when `Run` returns `b`, and `none` when
`Run` does not return: the exception raised in `createProgram` leaves it (it has
no handler), or the answers of `glfwWindowShouldClose` ran out with the loop
still running. -/
def Run (env : Env) (app : Application) : Option Bool × List Event :=
  match Init env app with
  | (some false, _, t1) => (some false, t1 ++ [.err .initializationError])
  | (none, _, t1) => (none, t1)
  | (some true, app1, t1) =>
    let prev_time : Float := 0.0
    match Run.loop env app1 env.shouldClose prev_time 0 with
    | (true, t2) => (some true, t1 ++ [.host .glfwSetTime] ++ t2 ++ [.host .glfwTerminate])
    | (false, t2) => (none, t1 ++ [.host .glfwSetTime] ++ t2)

/-! ## Observations on event lists -/

/-- The OpenGL driver calls of a run, in order. -/
def glCalls : List Event → List GLCall
  | [] => []
  | .gl call :: rest => call :: glCalls rest
  | _ :: rest => glCalls rest

/-- The GLFW and GLEW calls of a run, in order. -/
def hostCalls : List Event → List HostCall
  | [] => []
  | .host call :: rest => call :: hostCalls rest
  | _ :: rest => hostCalls rest

/-- The `Mesh` calls of a run, in order. -/
def meshCalls : List Event → List MeshCall
  | [] => []
  | .mesh call :: rest => call :: meshCalls rest
  | _ :: rest => meshCalls rest

/-- The lines written to `std::cerr` during a run, in order. -/
def errLines : List Event → List ErrLine
  | [] => []
  | .err line :: rest => line :: errLines rest
  | _ :: rest => errLines rest

/-- The file accesses of a run (paths opened or read), in order. -/
def fileAccesses : List Event → List String
  | [] => []
  | .openFile file :: rest => file :: fileAccesses rest
  | .readFile file :: rest => file :: fileAccesses rest
  | _ :: rest => fileAccesses rest

/-- Driver calls that build the program: object creation, source upload,
compilation, attachment and linking (status queries, log queries and deletions
are the remaining calls of `createProgram`). -/
def isBuildCall : GLCall → Bool
  | .glCreateProgram => true
  | .glCreateShader _ => true
  | .glShaderSource _ _ => true
  | .glCompileShader _ => true
  | .glAttachShader _ _ => true
  | .glLinkProgram _ => true
  | _ => false

/-- The shader-object argument of a driver call, when it takes one. -/
def shaderArg : GLCall → Option GLuint
  | .glShaderSource shader _ => some shader
  | .glCompileShader shader => some shader
  | .glAttachShader _ shader => some shader
  | .glGetShaderiv shader _ => some shader
  | .glGetShaderInfoLog shader _ => some shader
  | .glDeleteShader shader => some shader
  | _ => none

/-- The call that directly follows the first occurrence of `c`, when there is one. -/
def nextAfter (c : GLCall) : List GLCall → Option GLCall
  | [] => none
  | x :: rest => if x = c then rest.head? else nextAfter c rest

/-- The five per-frame calls: clear, program bind, draw, buffer swap, event poll. -/
def isFrameCall : Event → Bool
  | .gl .glClear => true
  | .gl (.glUseProgram _) => true
  | .mesh (.Draw _) => true
  | .host (.glfwSwapBuffers _) => true
  | .host .glfwPollEvents => true
  | _ => false

/-- A `glfwWindowShouldClose` check. -/
def isShouldClose : Event → Bool
  | .host (.glfwWindowShouldClose _) => true
  | _ => false

/-- A loop event: a `glfwWindowShouldClose` check or one of the per-frame calls. -/
def isLoopEvent (e : Event) : Bool :=
  isShouldClose e || isFrameCall e

/-- A `glfwSwapBuffers` call. -/
def isSwapBuffers : Event → Bool
  | .host (.glfwSwapBuffers _) => true
  | _ => false

/-- A `glfwTerminate` call. -/
def isTerminate : Event → Bool
  | .host .glfwTerminate => true
  | _ => false

/-- Number of answers `GL_FALSE` before the first other answer. -/
def leadingFalse : List Int → Nat
  | [] => 0
  | answer :: rest => if answer = GL_FALSE then leadingFalse rest + 1 else 0

/-- The events of one tick that are loop events: the check that answered
`GL_FALSE`, then clear, bind, draw, swap and poll. -/
def frame (window : Nat) (program : GLuint) (mesh : Nat) : List Event :=
  [.host (.glfwWindowShouldClose window), .gl .glClear, .gl (.glUseProgram program),
   .mesh (.Draw mesh), .host (.glfwSwapBuffers window), .host .glfwPollEvents]

/-- The loop events of `n` consecutive ticks. -/
def frames (window : Nat) (program : GLuint) (mesh : Nat) : Nat → List Event
  | 0 => []
  | n + 1 => frame window program mesh ++ frames window program mesh n

/-! ## Sample environments -/

/-- A file system holding both shader sources. -/
def sampleFiles (path : String) : FileRead :=
  if path = "shader.vert" then .ok "void main();"
  else if path = "shader.frag" then .ok "void main();"
  else .openFail

/-- A run in which every step succeeds, every log is empty, and the window is
closed after two frames. -/
def sampleEnv : Env where
  files := sampleFiles
  program := 3
  vertexShaderObj := 1
  vertexCompileStatus := GL_TRUE
  vertexInfoLogLength := 0
  vertexInfoLog := ""
  fragmentShaderObj := 2
  fragmentCompileStatus := GL_TRUE
  fragmentInfoLogLength := 0
  fragmentInfoLog := ""
  linkStatus := GL_TRUE
  programInfoLogLength := 0
  programInfoLog := ""
  glfwInitResult := 1
  createdWindow := 7
  glewInitResult := GLEW_OK
  triangleMesh := 9
  shouldClose := [0, 0, 1]
  clock := fun _ => 0.0

/-- The `Application` object before `Run`. -/
def freshApp : Application where
  window_ := 0
  program_ := 0
  triangle_ := 0

/-- A run in which the vertex shader compiles with a warning: the compile
status is success and the driver reports an info log of 8 characters. -/
def warningEnv : Env :=
  { sampleEnv with vertexInfoLogLength := 8, vertexInfoLog := "warning" }

/-- A run in which the vertex shader fails to compile and the fragment shader
compiles with a warning. -/
def vertexErrorEnv : Env :=
  { sampleEnv with
    vertexCompileStatus := GL_FALSE
    vertexInfoLogLength := 6
    vertexInfoLog := "error"
    fragmentInfoLogLength := 8
    fragmentInfoLog := "warning" }

/-- A file system in which `shader.vert` opens but cannot be read (for instance
a directory of that name), and `shader.frag` is a readable file. -/
def vertexUnreadableFiles (path : String) : FileRead :=
  if path = "shader.vert" then .readFail
  else if path = "shader.frag" then .ok "void main();"
  else .openFail

/-- A file system in which `shader.vert` is a readable file and `shader.frag`
opens but cannot be read. -/
def fragmentUnreadableFiles (path : String) : FileRead :=
  if path = "shader.vert" then .ok "void main();"
  else if path = "shader.frag" then .readFail
  else .openFail

/-- A run in which the window is created but neither shader source file can be
opened; the window is closed after two frames. -/
def missingShaderEnv : Env :=
  { sampleEnv with files := fun _ => .openFail }

/-- A run in which the first `glfwWindowShouldClose` check already answers true. -/
def closeAtOnceEnv : Env :=
  { sampleEnv with shouldClose := [1] }

/-- A run in which `glfwInit` and `glfwCreateWindow` succeed and `glewInit` fails. -/
def glewFailEnv : Env :=
  { sampleEnv with glewInitResult := 1 }

/-! ## Lemmas on observations -/

@[simp] theorem glCalls_nil : glCalls [] = [] := rfl

@[simp] theorem glCalls_openFile (file : String) (rest : List Event) :
    glCalls (.openFile file :: rest) = glCalls rest := rfl

@[simp] theorem glCalls_readFile (file : String) (rest : List Event) :
    glCalls (.readFile file :: rest) = glCalls rest := rfl

@[simp] theorem glCalls_gl (call : GLCall) (rest : List Event) :
    glCalls (.gl call :: rest) = call :: glCalls rest := rfl

@[simp] theorem glCalls_host (call : HostCall) (rest : List Event) :
    glCalls (.host call :: rest) = glCalls rest := rfl

@[simp] theorem glCalls_mesh (call : MeshCall) (rest : List Event) :
    glCalls (.mesh call :: rest) = glCalls rest := rfl

@[simp] theorem glCalls_err (line : ErrLine) (rest : List Event) :
    glCalls (.err line :: rest) = glCalls rest := rfl

@[simp] theorem glCalls_append (xs ys : List Event) :
    glCalls (xs ++ ys) = glCalls xs ++ glCalls ys := by
  induction xs with
  | nil => rfl
  | cons x xs ih => cases x <;> simp [ih]

theorem glCalls_ite (c : Prop) [Decidable c] (xs ys : List Event) :
    glCalls (if c then xs else ys) = if c then glCalls xs else glCalls ys := by
  split <;> rfl

@[simp] theorem hostCalls_nil : hostCalls [] = [] := rfl

@[simp] theorem hostCalls_openFile (file : String) (rest : List Event) :
    hostCalls (.openFile file :: rest) = hostCalls rest := rfl

@[simp] theorem hostCalls_readFile (file : String) (rest : List Event) :
    hostCalls (.readFile file :: rest) = hostCalls rest := rfl

@[simp] theorem hostCalls_gl (call : GLCall) (rest : List Event) :
    hostCalls (.gl call :: rest) = hostCalls rest := rfl

@[simp] theorem hostCalls_host (call : HostCall) (rest : List Event) :
    hostCalls (.host call :: rest) = call :: hostCalls rest := rfl

@[simp] theorem hostCalls_mesh (call : MeshCall) (rest : List Event) :
    hostCalls (.mesh call :: rest) = hostCalls rest := rfl

@[simp] theorem hostCalls_err (line : ErrLine) (rest : List Event) :
    hostCalls (.err line :: rest) = hostCalls rest := rfl

@[simp] theorem hostCalls_append (xs ys : List Event) :
    hostCalls (xs ++ ys) = hostCalls xs ++ hostCalls ys := by
  induction xs with
  | nil => rfl
  | cons x xs ih => cases x <;> simp [ih]

theorem hostCalls_ite (c : Prop) [Decidable c] (xs ys : List Event) :
    hostCalls (if c then xs else ys) = if c then hostCalls xs else hostCalls ys := by
  split <;> rfl

@[simp] theorem meshCalls_nil : meshCalls [] = [] := rfl

@[simp] theorem meshCalls_openFile (file : String) (rest : List Event) :
    meshCalls (.openFile file :: rest) = meshCalls rest := rfl

@[simp] theorem meshCalls_readFile (file : String) (rest : List Event) :
    meshCalls (.readFile file :: rest) = meshCalls rest := rfl

@[simp] theorem meshCalls_gl (call : GLCall) (rest : List Event) :
    meshCalls (.gl call :: rest) = meshCalls rest := rfl

@[simp] theorem meshCalls_host (call : HostCall) (rest : List Event) :
    meshCalls (.host call :: rest) = meshCalls rest := rfl

@[simp] theorem meshCalls_mesh (call : MeshCall) (rest : List Event) :
    meshCalls (.mesh call :: rest) = call :: meshCalls rest := rfl

@[simp] theorem meshCalls_err (line : ErrLine) (rest : List Event) :
    meshCalls (.err line :: rest) = meshCalls rest := rfl

@[simp] theorem meshCalls_append (xs ys : List Event) :
    meshCalls (xs ++ ys) = meshCalls xs ++ meshCalls ys := by
  induction xs with
  | nil => rfl
  | cons x xs ih => cases x <;> simp [ih]

theorem meshCalls_ite (c : Prop) [Decidable c] (xs ys : List Event) :
    meshCalls (if c then xs else ys) = if c then meshCalls xs else meshCalls ys := by
  split <;> rfl

@[simp] theorem errLines_nil : errLines [] = [] := rfl

@[simp] theorem errLines_openFile (file : String) (rest : List Event) :
    errLines (.openFile file :: rest) = errLines rest := rfl

@[simp] theorem errLines_readFile (file : String) (rest : List Event) :
    errLines (.readFile file :: rest) = errLines rest := rfl

@[simp] theorem errLines_gl (call : GLCall) (rest : List Event) :
    errLines (.gl call :: rest) = errLines rest := rfl

@[simp] theorem errLines_host (call : HostCall) (rest : List Event) :
    errLines (.host call :: rest) = errLines rest := rfl

@[simp] theorem errLines_mesh (call : MeshCall) (rest : List Event) :
    errLines (.mesh call :: rest) = errLines rest := rfl

@[simp] theorem errLines_err (line : ErrLine) (rest : List Event) :
    errLines (.err line :: rest) = line :: errLines rest := rfl

@[simp] theorem errLines_append (xs ys : List Event) :
    errLines (xs ++ ys) = errLines xs ++ errLines ys := by
  induction xs with
  | nil => rfl
  | cons x xs ih => cases x <;> simp [ih]

theorem errLines_ite (c : Prop) [Decidable c] (xs ys : List Event) :
    errLines (if c then xs else ys) = if c then errLines xs else errLines ys := by
  split <;> rfl

@[simp] theorem fileAccesses_nil : fileAccesses [] = [] := rfl

@[simp] theorem fileAccesses_openFile (file : String) (rest : List Event) :
    fileAccesses (.openFile file :: rest) = file :: fileAccesses rest := rfl

@[simp] theorem fileAccesses_readFile (file : String) (rest : List Event) :
    fileAccesses (.readFile file :: rest) = file :: fileAccesses rest := rfl

@[simp] theorem fileAccesses_gl (call : GLCall) (rest : List Event) :
    fileAccesses (.gl call :: rest) = fileAccesses rest := rfl

@[simp] theorem fileAccesses_host (call : HostCall) (rest : List Event) :
    fileAccesses (.host call :: rest) = fileAccesses rest := rfl

@[simp] theorem fileAccesses_mesh (call : MeshCall) (rest : List Event) :
    fileAccesses (.mesh call :: rest) = fileAccesses rest := rfl

@[simp] theorem fileAccesses_err (line : ErrLine) (rest : List Event) :
    fileAccesses (.err line :: rest) = fileAccesses rest := rfl

@[simp] theorem fileAccesses_append (xs ys : List Event) :
    fileAccesses (xs ++ ys) = fileAccesses xs ++ fileAccesses ys := by
  induction xs with
  | nil => rfl
  | cons x xs ih => cases x <;> simp [ih]

theorem fileAccesses_ite (c : Prop) [Decidable c] (xs ys : List Event) :
    fileAccesses (if c then xs else ys) = if c then fileAccesses xs else fileAccesses ys := by
  split <;> rfl

/-- The driver calls of `createProgram` when both files are readable. -/
theorem glCalls_createProgram (env : Env) (v f vsrc fsrc : String)
    (hv : env.files v = .ok vsrc) (hf : env.files f = .ok fsrc) :
    glCalls (createProgram env v f).2 =
      [.glCreateProgram,
       .glCreateShader .GL_VERTEX_SHADER,
       .glShaderSource env.vertexShaderObj vsrc,
       .glCompileShader env.vertexShaderObj,
       .glAttachShader env.program env.vertexShaderObj,
       .glGetShaderiv env.vertexShaderObj .GL_COMPILE_STATUS,
       .glGetShaderiv env.vertexShaderObj .GL_INFO_LOG_LENGTH]
      ++ (if env.vertexInfoLogLength > 1 then
            [.glGetShaderInfoLog env.vertexShaderObj env.vertexInfoLogLength] else [])
      ++ [.glDeleteShader env.vertexShaderObj,
          .glCreateShader .GL_FRAGMENT_SHADER,
          .glShaderSource env.fragmentShaderObj fsrc,
          .glCompileShader env.fragmentShaderObj,
          .glAttachShader env.program env.fragmentShaderObj,
          .glGetShaderiv env.fragmentShaderObj .GL_COMPILE_STATUS,
          .glGetShaderiv env.fragmentShaderObj .GL_INFO_LOG_LENGTH]
      ++ (if env.fragmentInfoLogLength > 1 then
            [.glGetShaderInfoLog env.fragmentShaderObj env.fragmentInfoLogLength] else [])
      ++ [.glDeleteShader env.fragmentShaderObj,
          .glLinkProgram env.program,
          .glGetProgramiv env.program .GL_LINK_STATUS,
          .glGetProgramiv env.program .GL_INFO_LOG_LENGTH]
      ++ (if env.programInfoLogLength > 1 then
            [.glGetProgramInfoLog env.program env.programInfoLogLength] else []) := by
  simp only [createProgram, hv, hf, glCalls_append, glCalls_ite, glCalls_gl, glCalls_err,
    glCalls_openFile, glCalls_readFile, glCalls_nil, List.append_assoc, List.cons_append,
    List.nil_append, ite_self, List.append_nil]

/-- The lines `createProgram` writes to `std::cerr` when both files are readable. -/
theorem errLines_createProgram (env : Env) (v f vsrc fsrc : String)
    (hv : env.files v = .ok vsrc) (hf : env.files f = .ok fsrc) :
    errLines (createProgram env v f).2 =
      (if env.vertexCompileStatus = GL_FALSE then [.compileErrorVertex] else [])
      ++ (if env.vertexInfoLogLength > 1 then
            [.infoLog .vertexShader env.vertexInfoLog] else [])
      ++ (if env.fragmentCompileStatus = GL_FALSE then [.compileErrorFragment] else [])
      ++ (if env.fragmentInfoLogLength > 1 then
            [.infoLog .fragmentShader env.fragmentInfoLog] else [])
      ++ (if env.linkStatus = GL_FALSE then [.linkError] else [])
      ++ (if env.programInfoLogLength > 1 then
            [.infoLog .program env.programInfoLog] else []) := by
  simp only [createProgram, hv, hf, errLines_append, errLines_ite, errLines_gl, errLines_err,
    errLines_openFile, errLines_readFile, errLines_nil, List.append_assoc, List.cons_append,
    List.nil_append, ite_self, List.append_nil]

/-- The handle `createProgram` returns when both files are readable. -/
theorem createProgram_fst (env : Env) (v f vsrc fsrc : String)
    (hv : env.files v = .ok vsrc) (hf : env.files f = .ok fsrc) :
    (createProgram env v f).1 = some env.program := by
  simp only [createProgram, hv, hf]

/-! ## `createProgram`: claims -/

/-- When a shader file cannot be opened or read, `createProgram` makes no
driver call; when the failure is a failure to open (of the vertex file, or of
the fragment file after the vertex file was read), it returns 0. -/
theorem createProgram_file_failure (env : Env) (v f : String) :
    ((env.files v).readable = false ∨ (env.files f).readable = false →
      glCalls (createProgram env v f).2 = []) ∧
    (env.files v = .openFail → (createProgram env v f).1 = some 0) ∧
    ((env.files v).readable = true → env.files f = .openFail →
      (createProgram env v f).1 = some 0) := by
  unfold createProgram
  rcases hv : env.files v with _ | _ | vsrc
  · simp
  · simp [FileRead.readable]
  · rcases hf : env.files f with _ | _ | fsrc
    · simp
    · simp
    · simp [FileRead.readable]

/-- C1, the code at the failing input: `shader.vert` opens but cannot be read.
`createProgram` does not return 0: the exception raised by the read leaves it,
and no "Can't read source file" line is written.  The same happens when
`shader.vert` is read and `shader.frag` opens but cannot be read.  (No driver
call is made in either run.) -/
theorem createProgram_read_failure_throws :
    (vertexUnreadableFiles "shader.vert").readable = false ∧
    (createProgram { sampleEnv with files := vertexUnreadableFiles }
      "shader.vert" "shader.frag").1 = none ∧
    errLines (createProgram { sampleEnv with files := vertexUnreadableFiles }
      "shader.vert" "shader.frag").2 = [] ∧
    glCalls (createProgram { sampleEnv with files := vertexUnreadableFiles }
      "shader.vert" "shader.frag").2 = [] ∧
    (fragmentUnreadableFiles "shader.vert").readable = true ∧
    (fragmentUnreadableFiles "shader.frag").readable = false ∧
    (createProgram { sampleEnv with files := fragmentUnreadableFiles }
      "shader.vert" "shader.frag").1 = none ∧
    errLines (createProgram { sampleEnv with files := fragmentUnreadableFiles }
      "shader.vert" "shader.frag").2 = [] ∧
    glCalls (createProgram { sampleEnv with files := fragmentUnreadableFiles }
      "shader.vert" "shader.frag").2 = [] := by
  decide

/-- C2: when both source files are readable then, whatever compile statuses,
link status and info-log lengths the driver reports, `createProgram` returns
the handle obtained from `glCreateProgram`, and its program-building driver
calls are exactly: create the program, then for the vertex and for the fragment
stage create the stage object, upload its source, compile it and attach it to
the program, then link the program. -/
theorem createProgram_builds_and_returns_handle (env : Env) (v f vsrc fsrc : String)
    (hv : env.files v = .ok vsrc) (hf : env.files f = .ok fsrc) :
    (createProgram env v f).1 = some env.program ∧
    (glCalls (createProgram env v f).2).filter isBuildCall =
      [.glCreateProgram,
       .glCreateShader .GL_VERTEX_SHADER,
       .glShaderSource env.vertexShaderObj vsrc,
       .glCompileShader env.vertexShaderObj,
       .glAttachShader env.program env.vertexShaderObj,
       .glCreateShader .GL_FRAGMENT_SHADER,
       .glShaderSource env.fragmentShaderObj fsrc,
       .glCompileShader env.fragmentShaderObj,
       .glAttachShader env.program env.fragmentShaderObj,
       .glLinkProgram env.program] := by
  refine ⟨createProgram_fst env v f vsrc fsrc hv hf, ?_⟩
  rw [glCalls_createProgram env v f vsrc fsrc hv hf]
  split_ifs <;> simp [isBuildCall]

/-- Witness for C2: a run in which the vertex stage fails to compile. -/
theorem createProgram_builds_and_returns_handle_witness :
    (createProgram vertexErrorEnv "shader.vert" "shader.frag").1 = some 3 ∧
    (glCalls (createProgram vertexErrorEnv "shader.vert" "shader.frag").2).filter isBuildCall =
      [.glCreateProgram,
       .glCreateShader .GL_VERTEX_SHADER,
       .glShaderSource 1 "void main();",
       .glCompileShader 1,
       .glAttachShader 3 1,
       .glCreateShader .GL_FRAGMENT_SHADER,
       .glShaderSource 2 "void main();",
       .glCompileShader 2,
       .glAttachShader 3 2,
       .glLinkProgram 3] :=
  createProgram_builds_and_returns_handle vertexErrorEnv "shader.vert" "shader.frag"
    "void main();" "void main();" (by decide) (by decide)

/-- C3, counterexample: both files are readable and the driver reports success
for both compilations and for the link, yet `createProgram` writes a line to
`std::cerr`, because the vertex stage has an info log of length 8. -/
theorem createProgram_clean_build_silent_counterexample :
    (warningEnv.files "shader.vert").readable = true ∧
    (warningEnv.files "shader.frag").readable = true ∧
    warningEnv.vertexCompileStatus = GL_TRUE ∧
    warningEnv.fragmentCompileStatus = GL_TRUE ∧
    warningEnv.linkStatus = GL_TRUE ∧
    errLines (createProgram warningEnv "shader.vert" "shader.frag").2 =
      [.infoLog .vertexShader "warning"] := by
  decide

/-- C3, amended: when both files are readable and the driver reports a compile
status other than `GL_FALSE` for both stages and a link status other than
`GL_FALSE`, the only lines `createProgram` writes to `std::cerr` are the info
logs whose reported length exceeds 1 (vertex, fragment, program, in that
order); it writes nothing exactly when all three reported lengths are at most 1. -/
theorem createProgram_clean_build_output (env : Env) (v f vsrc fsrc : String)
    (hv : env.files v = .ok vsrc) (hf : env.files f = .ok fsrc)
    (hvs : env.vertexCompileStatus ≠ GL_FALSE)
    (hfs : env.fragmentCompileStatus ≠ GL_FALSE)
    (hls : env.linkStatus ≠ GL_FALSE) :
    errLines (createProgram env v f).2 =
      (if env.vertexInfoLogLength > 1 then
        [.infoLog .vertexShader env.vertexInfoLog] else [])
      ++ (if env.fragmentInfoLogLength > 1 then
        [.infoLog .fragmentShader env.fragmentInfoLog] else [])
      ++ (if env.programInfoLogLength > 1 then
        [.infoLog .program env.programInfoLog] else []) ∧
    (errLines (createProgram env v f).2 = [] ↔
      env.vertexInfoLogLength ≤ 1 ∧ env.fragmentInfoLogLength ≤ 1 ∧
      env.programInfoLogLength ≤ 1) := by
  rw [errLines_createProgram env v f vsrc fsrc hv hf]
  simp only [if_neg hvs, if_neg hfs, if_neg hls, List.nil_append, List.append_nil,
    List.append_assoc]
  refine ⟨trivial, ?_⟩
  split_ifs <;> simp <;> first | (intros; linarith) | exact ⟨by linarith, by linarith, by linarith⟩

/-- Witness for C3 (amended): a clean build with empty logs writes nothing. -/
theorem createProgram_clean_build_output_witness :
    errLines (createProgram sampleEnv "shader.vert" "shader.frag").2 = [] :=
  ((createProgram_clean_build_output sampleEnv "shader.vert" "shader.frag"
      "void main();" "void main();" (by decide) (by decide) (by decide) (by decide)
      (by decide)).2).2 (by decide)

/-- C4, counterexample: both files are readable, the vertex compile status is
failure and the fragment compile status is success, yet the fragment stage's
info log is written to `std::cerr`, because its reported length is 8. -/
theorem createProgram_vertex_error_counterexample :
    (vertexErrorEnv.files "shader.vert").readable = true ∧
    (vertexErrorEnv.files "shader.frag").readable = true ∧
    vertexErrorEnv.vertexCompileStatus = GL_FALSE ∧
    vertexErrorEnv.fragmentCompileStatus = GL_TRUE ∧
    errLines (createProgram vertexErrorEnv "shader.vert" "shader.frag").2 =
      [.compileErrorVertex, .infoLog .vertexShader "error",
       .infoLog .fragmentShader "warning"] := by
  decide

/-- C4, amended: when both files are readable, the vertex compile status is
`GL_FALSE` and the fragment compile status is not, `createProgram` returns the
handle obtained from `glCreateProgram`, writes the non-empty line
"Compile Error in Vertex Shader.", does not write the line
"Compile Error in Fragment Shader.", and writes the fragment stage's info log
exactly when its reported length exceeds 1. -/
theorem createProgram_vertex_error_output (env : Env) (v f vsrc fsrc : String)
    (hv : env.files v = .ok vsrc) (hf : env.files f = .ok fsrc)
    (hvs : env.vertexCompileStatus = GL_FALSE)
    (hfs : env.fragmentCompileStatus ≠ GL_FALSE) :
    (createProgram env v f).1 = some env.program ∧
    ErrLine.compileErrorVertex ∈ errLines (createProgram env v f).2 ∧
    ErrLine.compileErrorVertex.text ≠ "" ∧
    ErrLine.compileErrorFragment ∉ errLines (createProgram env v f).2 ∧
    (∀ text, ErrLine.infoLog .fragmentShader text ∈ errLines (createProgram env v f).2 ↔
      env.fragmentInfoLogLength > 1 ∧ text = env.fragmentInfoLog) := by
  refine ⟨createProgram_fst env v f vsrc fsrc hv hf, ?_, by decide, ?_, ?_⟩
  · rw [errLines_createProgram env v f vsrc fsrc hv hf]
    simp [hvs]
  · rw [errLines_createProgram env v f vsrc fsrc hv hf]
    simp only [if_pos hvs, if_neg hfs]
    split_ifs <;> simp
  · intro text
    rw [errLines_createProgram env v f vsrc fsrc hv hf]
    simp only [if_pos hvs, if_neg hfs]
    split_ifs <;> simp [*]

/-- Witness for C4 (amended): the vertex stage fails, the fragment stage
succeeds with an empty log. -/
theorem createProgram_vertex_error_output_witness :
    (createProgram { sampleEnv with vertexCompileStatus := GL_FALSE }
      "shader.vert" "shader.frag").1 = some 3 ∧
    ErrLine.compileErrorVertex ∈
      errLines (createProgram { sampleEnv with vertexCompileStatus := GL_FALSE }
        "shader.vert" "shader.frag").2 ∧
    ErrLine.compileErrorFragment ∉
      errLines (createProgram { sampleEnv with vertexCompileStatus := GL_FALSE }
        "shader.vert" "shader.frag").2 :=
  have h := createProgram_vertex_error_output
    { sampleEnv with vertexCompileStatus := GL_FALSE } "shader.vert" "shader.frag"
    "void main();" "void main();" (by decide) (by decide) (by decide) (by decide)
  ⟨h.1, h.2.1, h.2.2.2.1⟩

/-- C9, counterexample: in a run with both files readable, the driver call that
directly follows `glAttachShader(program, vertexShaderObj)` is the compile-status
query `glGetShaderiv`, not `glDeleteShader(vertexShaderObj)`. -/
theorem createProgram_delete_directly_after_attach_counterexample :
    (sampleEnv.files "shader.vert").readable = true ∧
    (sampleEnv.files "shader.frag").readable = true ∧
    nextAfter (.glAttachShader 3 1)
      (glCalls (createProgram sampleEnv "shader.vert" "shader.frag").2) =
        some (.glGetShaderiv 1 .GL_COMPILE_STATUS) ∧
    nextAfter (.glAttachShader 3 1)
      (glCalls (createProgram sampleEnv "shader.vert" "shader.frag").2) ≠
        some (.glDeleteShader 1) := by
  decide

/-- C9, amended: in every run of `createProgram` with both files readable, each
stage object is released after it has been attached and its compile status and
info log have been queried.  The driver calls are exactly: the creation,
source upload, compilation and attachment of the vertex stage, then
`glGetShaderiv(GL_COMPILE_STATUS)`, `glGetShaderiv(GL_INFO_LOG_LENGTH)` and,
when the reported length exceeds 1, `glGetShaderInfoLog` on that stage, then its
deletion; the same for the fragment stage; then `glLinkProgram` and the program
queries.  So the call directly after each attachment is the compile-status
query; every shader argument after the vertex stage's deletion is the fragment
stage object, created after that deletion; no call after the fragment stage's
deletion takes a shader argument; and both deletions precede `glLinkProgram`. -/
theorem createProgram_stage_release_order (env : Env) (v f vsrc fsrc : String)
    (hv : env.files v = .ok vsrc) (hf : env.files f = .ok fsrc) :
    ∃ afterVertexDelete afterFragmentDelete : List GLCall,
      glCalls (createProgram env v f).2 =
        [.glCreateProgram,
         .glCreateShader .GL_VERTEX_SHADER,
         .glShaderSource env.vertexShaderObj vsrc,
         .glCompileShader env.vertexShaderObj,
         .glAttachShader env.program env.vertexShaderObj,
         .glGetShaderiv env.vertexShaderObj .GL_COMPILE_STATUS,
         .glGetShaderiv env.vertexShaderObj .GL_INFO_LOG_LENGTH]
        ++ (if env.vertexInfoLogLength > 1 then
              [.glGetShaderInfoLog env.vertexShaderObj env.vertexInfoLogLength] else [])
        ++ [.glDeleteShader env.vertexShaderObj] ++ afterVertexDelete ∧
      afterVertexDelete =
        [.glCreateShader .GL_FRAGMENT_SHADER,
         .glShaderSource env.fragmentShaderObj fsrc,
         .glCompileShader env.fragmentShaderObj,
         .glAttachShader env.program env.fragmentShaderObj,
         .glGetShaderiv env.fragmentShaderObj .GL_COMPILE_STATUS,
         .glGetShaderiv env.fragmentShaderObj .GL_INFO_LOG_LENGTH]
        ++ (if env.fragmentInfoLogLength > 1 then
              [.glGetShaderInfoLog env.fragmentShaderObj env.fragmentInfoLogLength] else [])
        ++ [.glDeleteShader env.fragmentShaderObj] ++ afterFragmentDelete ∧
      afterFragmentDelete =
        [.glLinkProgram env.program,
         .glGetProgramiv env.program .GL_LINK_STATUS,
         .glGetProgramiv env.program .GL_INFO_LOG_LENGTH]
        ++ (if env.programInfoLogLength > 1 then
              [.glGetProgramInfoLog env.program env.programInfoLogLength] else []) ∧
      (∀ c ∈ afterVertexDelete,
        shaderArg c = none ∨ shaderArg c = some env.fragmentShaderObj) ∧
      (∀ c ∈ afterFragmentDelete, shaderArg c = none) ∧
      nextAfter (.glAttachShader env.program env.vertexShaderObj)
        (glCalls (createProgram env v f).2) =
          some (.glGetShaderiv env.vertexShaderObj .GL_COMPILE_STATUS) ∧
      nextAfter (.glAttachShader env.program env.fragmentShaderObj)
        (glCalls (createProgram env v f).2) =
          some (.glGetShaderiv env.fragmentShaderObj .GL_COMPILE_STATUS) := by
  refine ⟨_, _, ?_, rfl, rfl, ?_, ?_, ?_, ?_⟩
  · rw [glCalls_createProgram env v f vsrc fsrc hv hf]
    simp only [List.append_assoc, List.cons_append, List.nil_append]
  · split_ifs <;> simp [shaderArg]
  · split_ifs <;> simp [shaderArg]
  · rw [glCalls_createProgram env v f vsrc fsrc hv hf]
    simp [nextAfter]
  · rw [glCalls_createProgram env v f vsrc fsrc hv hf]
    by_cases hvf : env.vertexShaderObj = env.fragmentShaderObj
    · simp [nextAfter, hvf]
    · split_ifs <;> simp [nextAfter, hvf]

/-- Witness for C9 (amended): the sample run, whose logs are empty. -/
theorem createProgram_stage_release_order_witness :
    ∃ afterVertexDelete : List GLCall,
      glCalls (createProgram sampleEnv "shader.vert" "shader.frag").2 =
        [.glCreateProgram,
         .glCreateShader .GL_VERTEX_SHADER,
         .glShaderSource 1 "void main();",
         .glCompileShader 1,
         .glAttachShader 3 1,
         .glGetShaderiv 1 .GL_COMPILE_STATUS,
         .glGetShaderiv 1 .GL_INFO_LOG_LENGTH,
         .glDeleteShader 1] ++ afterVertexDelete ∧
      ∀ c ∈ afterVertexDelete, shaderArg c = none ∨ shaderArg c = some 2 := by
  obtain ⟨afterVertexDelete, _, h, _, _, hs, _⟩ :=
    createProgram_stage_release_order sampleEnv "shader.vert" "shader.frag"
      "void main();" "void main();" (by decide) (by decide)
  exact ⟨afterVertexDelete, h, hs⟩

/-! ## Lemmas on `Application` -/

/-- A swap is a loop event. -/
theorem isLoopEvent_of_isSwapBuffers (e : Event) (h : isSwapBuffers e = true) :
    isLoopEvent e = true := by
  rcases e with _ | _ | _ | c | _ | _ <;> try simp [isSwapBuffers] at h
  cases c <;> simp_all [isSwapBuffers, isLoopEvent, isFrameCall, isShouldClose]

/-- A `glfwWindowShouldClose` check is a loop event. -/
theorem isLoopEvent_of_isShouldClose (e : Event) (h : isShouldClose e = true) :
    isLoopEvent e = true := by
  simp [isLoopEvent, h]

/-- A list without loop events and without `glfwTerminate` contributes nothing
to the loop projection nor to the counts of swaps, checks and terminations. -/
theorem setup_events_counts (l : List Event)
    (h : ∀ e ∈ l, isLoopEvent e = false ∧ isTerminate e = false) :
    l.filter isLoopEvent = [] ∧ l.countP isSwapBuffers = 0 ∧
    l.countP isShouldClose = 0 ∧ l.countP isTerminate = 0 := by
  refine ⟨?_, ?_, ?_, ?_⟩
  · rw [List.filter_eq_nil_iff]
    intro e he
    simp [(h e he).1]
  · rw [List.countP_eq_zero]
    intro e he hs
    have := isLoopEvent_of_isSwapBuffers e hs
    simp [(h e he).1] at this
  · rw [List.countP_eq_zero]
    intro e he hs
    have := isLoopEvent_of_isShouldClose e hs
    simp [(h e he).1] at this
  · rw [List.countP_eq_zero]
    intro e he
    simp [(h e he).2]

/-- No event of `createProgram` is a loop event, a `glfwTerminate`, a GLFW/GLEW
call or a `Mesh` call. -/
theorem createProgram_events (env : Env) (v f : String) :
    (∀ e ∈ (createProgram env v f).2, isLoopEvent e = false ∧ isTerminate e = false) ∧
    hostCalls (createProgram env v f).2 = [] ∧ meshCalls (createProgram env v f).2 = [] := by
  rcases hv : env.files v with _ | _ | vsrc
  · simp [createProgram, hv, isLoopEvent, isFrameCall, isShouldClose, isTerminate]
  · simp [createProgram, hv, isLoopEvent, isFrameCall, isShouldClose, isTerminate]
  · rcases hf : env.files f with _ | _ | fsrc
    · simp [createProgram, hv, hf, isLoopEvent, isFrameCall, isShouldClose, isTerminate]
    · simp [createProgram, hv, hf, isLoopEvent, isFrameCall, isShouldClose, isTerminate]
    · simp only [createProgram, hv, hf]
      refine ⟨?_, ?_, ?_⟩
      · simp only [List.mem_append, List.mem_cons, List.mem_ite_nil_right, List.mem_singleton,
          List.not_mem_nil, or_false, or_imp, forall_and, forall_eq, and_imp]
        simp [isLoopEvent, isFrameCall, isShouldClose, isTerminate]
      · simp [hostCalls_ite]
      · simp [meshCalls_ite]

/-- `InitWindow` returns `true` exactly when all three fallible steps succeed. -/
theorem InitWindow_fst (env : Env) (app : Application) (width height : Nat) :
    (InitWindow env app width height).1 =
      decide (env.glfwInitResult ≠ 0 ∧ env.createdWindow ≠ nullptr ∧
        env.glewInitResult = GLEW_OK) := by
  by_cases h1 : env.glfwInitResult = 0
  · simp [InitWindow, h1]
  · by_cases h2 : env.createdWindow = nullptr
    · simp [InitWindow, h1, h2]
    · by_cases h3 : env.glewInitResult = GLEW_OK <;> simp [InitWindow, h1, h2, h3]

/-- The object after `InitWindow` succeeded. -/
theorem InitWindow_app (env : Env) (app : Application) (width height : Nat)
    (h : (InitWindow env app width height).1 = true) :
    (InitWindow env app width height).2.1 = { app with window_ := env.createdWindow } := by
  by_cases h1 : env.glfwInitResult = 0
  · simp [InitWindow, h1] at h
  · by_cases h2 : env.createdWindow = nullptr
    · simp [InitWindow, h1, h2] at h
    · by_cases h3 : env.glewInitResult = GLEW_OK
      · simp [InitWindow, h1, h2, h3]
      · simp [InitWindow, h1, h2, h3] at h

/-- No event of `InitWindow` is a loop event, a `glfwTerminate`, a driver call,
a `Mesh` call or a file access. -/
theorem InitWindow_events (env : Env) (app : Application) (width height : Nat) :
    (∀ e ∈ (InitWindow env app width height).2.2,
      isLoopEvent e = false ∧ isTerminate e = false) ∧
    glCalls (InitWindow env app width height).2.2 = [] ∧
    meshCalls (InitWindow env app width height).2.2 = [] ∧
    fileAccesses (InitWindow env app width height).2.2 = [] := by
  by_cases h1 : env.glfwInitResult = 0
  · simp [InitWindow, h1, isLoopEvent, isFrameCall, isShouldClose, isTerminate]
  · by_cases h2 : env.createdWindow = nullptr
    · simp [InitWindow, h1, h2, isLoopEvent, isFrameCall, isShouldClose, isTerminate]
    · by_cases h3 : env.glewInitResult = GLEW_OK <;>
        simp [InitWindow, h1, h2, h3, isLoopEvent, isFrameCall, isShouldClose, isTerminate]

/-- `Init` in terms of `InitWindow(640, 480)` and `createProgram`. -/
theorem Init_eq (env : Env) (app : Application) :
    Init env app =
      match InitWindow env app 640 480 with
      | (false, app1, t1) => (some false, app1, t1 ++ [.err .errorInitWindow])
      | (true, app1, t1) =>
        match createProgram env "shader.vert" "shader.frag" with
        | (none, t2) => (none, app1, t1 ++ t2)
        | (some program, t2) =>
          (some true,
            { window_ := app1.window_, program_ := program, triangle_ := env.triangleMesh },
            t1 ++ t2 ++ [.mesh .CreateTriangleMesh]) := by
  simp only [Init]

/-- `Init` returns `false` exactly when `InitWindow(640, 480)` does. -/
theorem Init_false_iff (env : Env) (app : Application) :
    (Init env app).1 = some false ↔ (InitWindow env app 640 480).1 = false := by
  rw [Init_eq]
  rcases InitWindow env app 640 480 with ⟨b, app1, t1⟩
  rcases createProgram env "shader.vert" "shader.frag" with ⟨r, t2⟩
  cases b <;> cases r <;> simp

/-- `Init` when `InitWindow` fails. -/
theorem Init_of_false (env : Env) (app : Application) (h : (Init env app).1 = some false) :
    (Init env app).2.2 = (InitWindow env app 640 480).2.2 ++ [.err .errorInitWindow] := by
  revert h
  rw [Init_eq]
  rcases InitWindow env app 640 480 with ⟨b, app1, t1⟩
  rcases createProgram env "shader.vert" "shader.frag" with ⟨r, t2⟩
  cases b <;> cases r <;> simp

/-- `Init` when `InitWindow` succeeds: the outcome and the events. -/
theorem Init_of_InitWindow_true (env : Env) (app : Application)
    (hw : (InitWindow env app 640 480).1 = true) :
    (Init env app).1 =
      Option.map (fun _ => true) (createProgram env "shader.vert" "shader.frag").1 ∧
    (Init env app).2.2 = (InitWindow env app 640 480).2.2
      ++ (createProgram env "shader.vert" "shader.frag").2
      ++ (if (createProgram env "shader.vert" "shader.frag").1 = none then []
          else [.mesh .CreateTriangleMesh]) := by
  revert hw
  rw [Init_eq]
  rcases InitWindow env app 640 480 with ⟨b, app1, t1⟩
  rcases createProgram env "shader.vert" "shader.frag" with ⟨r, t2⟩
  cases b <;> cases r <;> simp

/-- `Init` when it returns `true`. -/
theorem Init_of_true (env : Env) (app : Application) (h : (Init env app).1 = some true) :
    (InitWindow env app 640 480).1 = true ∧
    (createProgram env "shader.vert" "shader.frag").1 = some (Init env app).2.1.program_ ∧
    (Init env app).2.1.window_ = env.createdWindow ∧
    (Init env app).2.1.triangle_ = env.triangleMesh ∧
    (Init env app).2.2 = (InitWindow env app 640 480).2.2
      ++ (createProgram env "shader.vert" "shader.frag").2 ++ [.mesh .CreateTriangleMesh] := by
  have hw : (InitWindow env app 640 480).1 = true := by
    cases hb : (InitWindow env app 640 480).1
    · rw [(Init_false_iff env app).mpr hb] at h
      simp at h
    · rfl
  have ha := InitWindow_app env app 640 480 hw
  refine ⟨hw, ?_⟩
  revert h ha
  rw [Init_eq]
  rcases InitWindow env app 640 480 with ⟨b, app1, t1⟩
  rcases createProgram env "shader.vert" "shader.frag" with ⟨r, t2⟩
  cases b <;> cases r <;> simp
  intro ha
  simp [ha]

/-- No event of `Init` is a loop event or a `glfwTerminate`. -/
theorem Init_events (env : Env) (app : Application) :
    ∀ e ∈ (Init env app).2.2, isLoopEvent e = false ∧ isTerminate e = false := by
  intro e he
  cases hw : (InitWindow env app 640 480).1
  · rw [Init_of_false env app ((Init_false_iff env app).mpr hw)] at he
    rcases List.mem_append.mp he with h1 | h1
    · exact (InitWindow_events env app 640 480).1 e h1
    · simp at h1
      subst h1
      simp [isLoopEvent, isFrameCall, isShouldClose, isTerminate]
  · rw [(Init_of_InitWindow_true env app hw).2] at he
    rcases List.mem_append.mp he with h1 | h1
    · rcases List.mem_append.mp h1 with h2 | h2
      · exact (InitWindow_events env app 640 480).1 e h2
      · exact (createProgram_events env "shader.vert" "shader.frag").1 e h2
    · split_ifs at h1
      · simp at h1
      · simp at h1
        subst h1
        simp [isLoopEvent, isFrameCall, isShouldClose, isTerminate]

/-- `Run` when `Init` fails. -/
theorem Run_of_Init_false (env : Env) (app : Application)
    (h : (Init env app).1 = some false) :
    Run env app = (some false, (Init env app).2.2 ++ [.err .initializationError]) := by
  unfold Run
  rcases hi : Init env app with ⟨b, app1, t1⟩
  rw [hi] at h
  simp only at h
  subst h
  rfl

/-- `Run` when `Init` succeeds and the loop is left. -/
theorem Run_of_loop_true (env : Env) (app : Application) (h : (Init env app).1 = some true)
    (hl : (Run.loop env (Init env app).2.1 env.shouldClose 0.0 0).1 = true) :
    Run env app = (some true, (Init env app).2.2 ++ [.host .glfwSetTime]
      ++ (Run.loop env (Init env app).2.1 env.shouldClose 0.0 0).2
      ++ [.host .glfwTerminate]) := by
  unfold Run
  rcases hi : Init env app with ⟨b, app1, t1⟩
  rw [hi] at h hl
  simp only at h hl ⊢
  subst h
  simp only
  rcases hlo : Run.loop env app1 env.shouldClose 0.0 0 with ⟨c, t2⟩
  rw [hlo] at hl
  simp only at hl
  subst hl
  rfl

/-- `Run` when `Init` succeeds and the answers run out inside the loop. -/
theorem Run_of_loop_false (env : Env) (app : Application) (h : (Init env app).1 = some true)
    (hl : (Run.loop env (Init env app).2.1 env.shouldClose 0.0 0).1 = false) :
    Run env app = (none, (Init env app).2.2 ++ [.host .glfwSetTime]
      ++ (Run.loop env (Init env app).2.1 env.shouldClose 0.0 0).2) := by
  unfold Run
  rcases hi : Init env app with ⟨b, app1, t1⟩
  rw [hi] at h hl
  simp only at h hl ⊢
  subst h
  simp only
  rcases hlo : Run.loop env app1 env.shouldClose 0.0 0 with ⟨c, t2⟩
  rw [hlo] at hl
  simp only at hl
  subst hl
  rfl

/-- The loop events of the `while` loop: one `frame` per leading answer
`GL_FALSE`, then the check that left the loop, if any. -/
theorem loop_filter (env : Env) (app : Application) (answers : List Int) :
    ∀ (prev_time : Float) (tick : Nat),
      (Run.loop env app answers prev_time tick).2.filter isLoopEvent =
        frames app.window_ app.program_ app.triangle_ (leadingFalse answers)
          ++ (if (Run.loop env app answers prev_time tick).1 = true
              then [.host (.glfwWindowShouldClose app.window_)] else []) := by
  induction answers with
  | nil => intro _ _; simp [Run.loop, leadingFalse, frames]
  | cons a rest ih =>
    intro prev_time tick
    by_cases ha : a = GL_FALSE
    · simp only [Run.loop, if_pos ha, leadingFalse, frames, Update, List.filter_append, ih]
      simp [frame, isLoopEvent, isFrameCall, isShouldClose, List.filter]
    · simp [Run.loop, if_neg ha, leadingFalse, frames, isLoopEvent, isShouldClose,
        List.filter]

/-- The `while` loop on `n` answers `GL_FALSE` followed by another answer: it is
left, after `n` ticks, by the check that got the other answer. -/
theorem loop_closed (env : Env) (app : Application) (a : Int) (rest : List Int)
    (ha : a ≠ GL_FALSE) (n : Nat) :
    ∀ (prev_time : Float) (tick : Nat),
      (Run.loop env app (List.replicate n GL_FALSE ++ a :: rest) prev_time tick).1 = true ∧
      ∃ pre, (Run.loop env app (List.replicate n GL_FALSE ++ a :: rest) prev_time tick).2 =
          pre ++ [.host (.glfwWindowShouldClose app.window_)] ∧
        pre.countP isSwapBuffers = n ∧ pre.countP isShouldClose = n ∧
        pre.countP isTerminate = 0 := by
  induction n with
  | zero =>
    intro prev_time tick
    refine ⟨by simp [Run.loop, if_neg ha], [], by simp [Run.loop, if_neg ha], rfl, rfl, rfl⟩
  | succ n ih =>
    intro prev_time tick
    obtain ⟨h1, pre, hpre, hs, hc, ht⟩ :=
      ih (env.clock tick) (tick + 1)
    refine ⟨by simpa [Run.loop, List.replicate_succ] using h1,
      [.host (.glfwWindowShouldClose app.window_), .host .glfwGetTime]
        ++ Update app (env.clock tick - prev_time)
        ++ [.host (.glfwSwapBuffers app.window_), .host .glfwPollEvents] ++ pre, ?_, ?_, ?_, ?_⟩
    · simp [Run.loop, List.replicate_succ, hpre]
    · simp [Update, List.countP_cons, isSwapBuffers, hs]
    · simp [Update, List.countP_cons, isShouldClose, hc]
    · simp [Update, List.countP_cons, isTerminate, ht]

/-! ## `Application`: claims -/

/-- C5, the code at the failing input: the window and context are created but
neither shader file can be opened.  `createProgram` returns 0, yet `Init`
returns `true`, `Run` returns `true`, and the loop body runs twice with program
handle 0. -/
theorem Run_missing_shader_runs_loop :
    (InitWindow missingShaderEnv freshApp 640 480).1 = true ∧
    (createProgram missingShaderEnv "shader.vert" "shader.frag").1 = some 0 ∧
    (Init missingShaderEnv freshApp).1 = some true ∧
    (Run missingShaderEnv freshApp).1 = some true ∧
    (Run missingShaderEnv freshApp).2.filter isFrameCall =
      [.gl .glClear, .gl (.glUseProgram 0), .mesh (.Draw 9),
       .host (.glfwSwapBuffers 7), .host .glfwPollEvents,
       .gl .glClear, .gl (.glUseProgram 0), .mesh (.Draw 9),
       .host (.glfwSwapBuffers 7), .host .glfwPollEvents] := by
  decide

/-- C6: in every run in which `Init` succeeds, the stored program handle is the
one `createProgram` returned, the stored mesh is the one `CreateTriangleMesh`
returned, and the loop events of `Run` are, for each `glfwWindowShouldClose`
check that answers `GL_FALSE`, that check followed by exactly one `glClear`,
one `glUseProgram` of the stored handle, one `Draw` of the stored mesh, one
`glfwSwapBuffers` and one `glfwPollEvents`, in that order; the only other loop
event is the check that leaves the loop. -/
theorem Run_tick_sequence (env : Env) (app : Application)
    (h : (Init env app).1 = some true) :
    (createProgram env "shader.vert" "shader.frag").1 = some (Init env app).2.1.program_ ∧
    (Init env app).2.1.triangle_ = env.triangleMesh ∧
    (Init env app).2.1.window_ = env.createdWindow ∧
    (Run env app).2.filter isLoopEvent =
      frames env.createdWindow (Init env app).2.1.program_
          env.triangleMesh (leadingFalse env.shouldClose)
        ++ (if (Run env app).1 = none then []
            else [.host (.glfwWindowShouldClose env.createdWindow)]) := by
  obtain ⟨_, hprog, hwin, htri, _⟩ := Init_of_true env app h
  have hsetup := (setup_events_counts _ (Init_events env app)).1
  refine ⟨hprog, htri, hwin, ?_⟩
  have hf := loop_filter env (Init env app).2.1 env.shouldClose 0.0 0
  rw [hwin, htri] at hf
  cases hl : (Run.loop env (Init env app).2.1 env.shouldClose 0.0 0).1
  · rw [Run_of_loop_false env app h hl]
    simp only [List.filter_append, hsetup, hf, hl]
    simp [List.filter, isLoopEvent, isShouldClose, isFrameCall]
  · rw [Run_of_loop_true env app h hl]
    simp only [List.filter_append, hsetup, hf, hl]
    simp [List.filter, isLoopEvent, isShouldClose, isFrameCall]

/-- Witness for C6: the sample run, with two ticks. -/
theorem Run_tick_sequence_witness :
    (Run sampleEnv freshApp).2.filter isLoopEvent =
      frames 7 3 9 2 ++ [.host (.glfwWindowShouldClose 7)] :=
  (Run_tick_sequence sampleEnv freshApp (by decide)).2.2.2

/-- C7, counterexample: `Init` succeeds and the answers are zero times `GL_FALSE`
followed by a true answer; `Run` returns `true` without a single
`glfwSwapBuffers` call. -/
theorem Run_swaps_at_least_once_counterexample :
    (Init closeAtOnceEnv freshApp).1 = some true ∧
    closeAtOnceEnv.shouldClose = List.replicate 0 GL_FALSE ++ [GL_TRUE] ∧
    (Run closeAtOnceEnv freshApp).1 = some true ∧
    (Run closeAtOnceEnv freshApp).2.countP isSwapBuffers = 0 := by
  decide

/-- C7, amended: when `Init` succeeds and `glfwWindowShouldClose` answers `n`
times `GL_FALSE` and then something else, `Run` returns `true`, calls
`glfwSwapBuffers` exactly `n` times, calls `glfwTerminate` exactly once, and its
events end with the check that got the other answer, which is the check number
`n + 1`, directly followed by `glfwTerminate`; `glfwSwapBuffers` is called at
least once exactly when `n` is at least 1. -/
theorem Run_close_after_ticks (env : Env) (app : Application) (n : Nat) (a : Int)
    (rest : List Int) (h : (Init env app).1 = some true)
    (hans : env.shouldClose = List.replicate n GL_FALSE ++ a :: rest)
    (ha : a ≠ GL_FALSE) :
    (Run env app).1 = some true ∧
    (Run env app).2.countP isSwapBuffers = n ∧
    (Run env app).2.countP isTerminate = 1 ∧
    (∃ pre, (Run env app).2 =
        pre ++ [.host (.glfwWindowShouldClose env.createdWindow), .host .glfwTerminate] ∧
      pre.countP isShouldClose = n) ∧
    (1 ≤ (Run env app).2.countP isSwapBuffers ↔ 1 ≤ n) := by
  have hwin := (Init_of_true env app h).2.2.1
  obtain ⟨hs0, hc0, ht0⟩ := (setup_events_counts _ (Init_events env app)).2
  obtain ⟨hl, pre, hpre, hs, hc, ht⟩ :=
    loop_closed env (Init env app).2.1 a rest ha n 0.0 0
  rw [← hans] at hl hpre
  have hrun := Run_of_loop_true env app h hl
  rw [hpre, hwin] at hrun
  have hswap : (Run env app).2.countP isSwapBuffers = n := by
    rw [hrun]
    simp [List.countP_append, List.countP_cons, isSwapBuffers, hs0, hs]
  refine ⟨by rw [hrun], hswap, ?_, ?_, by rw [hswap]⟩
  · rw [hrun]
    simp [List.countP_append, List.countP_cons, isTerminate, ht0, ht]
  · refine ⟨(Init env app).2.2 ++ [.host .glfwSetTime] ++ pre, ?_, ?_⟩
    · rw [hrun]
      simp
    · simp [List.countP_append, List.countP_cons, isShouldClose, hc0, hc]

/-- Witness for C7 (amended): the sample run, closed after two ticks. -/
theorem Run_close_after_ticks_witness :
    (Run sampleEnv freshApp).1 = some true ∧
    (Run sampleEnv freshApp).2.countP isSwapBuffers = 2 ∧
    (Run sampleEnv freshApp).2.countP isTerminate = 1 :=
  have h := Run_close_after_ticks sampleEnv freshApp 2 1 [] (by decide) (by decide) (by decide)
  ⟨h.1, h.2.1, h.2.2.1⟩

/-- C8: `InitWindow` returns `false` exactly when `glfwInit` returns 0, or
`glfwCreateWindow` returns the null pointer, or `glewInit` does not return
`GLEW_OK`; its GLFW/GLEW calls stop at the first failing step; whenever
`InitWindow(640, 480)` returns `false`, `Run` returns `false` without any driver
call, file access, `Mesh` call or loop event; and when it returns `true`, `Init`
returns `true` whenever `createProgram` returns, and the GLFW/GLEW calls of
`Init` are the full setup sequence, with the window requested as 640 by 480 and
ending with `glfwSwapInterval(1)`. -/
theorem InitWindow_failure_is_fatal (env : Env) (app : Application) :
    (∀ width height, (InitWindow env app width height).1 = false ↔
      (env.glfwInitResult = 0 ∨ env.createdWindow = nullptr ∨
        env.glewInitResult ≠ GLEW_OK)) ∧
    (∀ width height, env.glfwInitResult = 0 →
      hostCalls (InitWindow env app width height).2.2 =
        [.glfwSetErrorCallback, .glfwInit]) ∧
    (∀ width height, env.glfwInitResult ≠ 0 → env.createdWindow = nullptr →
      hostCalls (InitWindow env app width height).2.2 =
        [.glfwSetErrorCallback, .glfwInit,
         .glfwWindowHint .GLFW_CONTEXT_VERSION_MAJOR (.num 4),
         .glfwWindowHint .GLFW_CONTEXT_VERSION_MINOR (.num 1),
         .glfwWindowHint .GLFW_OPENGL_FORWARD_COMPAT .GL_TRUE,
         .glfwWindowHint .GLFW_OPENGL_PROFILE .GLFW_OPENGL_CORE_PROFILE,
         .glfwCreateWindow width height "Window1"]) ∧
    (∀ width height, env.glfwInitResult ≠ 0 → env.createdWindow ≠ nullptr →
      env.glewInitResult ≠ GLEW_OK →
      hostCalls (InitWindow env app width height).2.2 =
        [.glfwSetErrorCallback, .glfwInit,
         .glfwWindowHint .GLFW_CONTEXT_VERSION_MAJOR (.num 4),
         .glfwWindowHint .GLFW_CONTEXT_VERSION_MINOR (.num 1),
         .glfwWindowHint .GLFW_OPENGL_FORWARD_COMPAT .GL_TRUE,
         .glfwWindowHint .GLFW_OPENGL_PROFILE .GLFW_OPENGL_CORE_PROFILE,
         .glfwCreateWindow width height "Window1",
         .glfwMakeContextCurrent env.createdWindow,
         .glewInit]) ∧
    ((InitWindow env app 640 480).1 = false →
      (Run env app).1 = some false ∧ glCalls (Run env app).2 = [] ∧
      fileAccesses (Run env app).2 = [] ∧ meshCalls (Run env app).2 = [] ∧
      (Run env app).2.filter isLoopEvent = []) ∧
    ((InitWindow env app 640 480).1 = true →
      (Init env app).1 =
        Option.map (fun _ => true) (createProgram env "shader.vert" "shader.frag").1 ∧
      hostCalls (Init env app).2.2 =
        [.glfwSetErrorCallback, .glfwInit,
         .glfwWindowHint .GLFW_CONTEXT_VERSION_MAJOR (.num 4),
         .glfwWindowHint .GLFW_CONTEXT_VERSION_MINOR (.num 1),
         .glfwWindowHint .GLFW_OPENGL_FORWARD_COMPAT .GL_TRUE,
         .glfwWindowHint .GLFW_OPENGL_PROFILE .GLFW_OPENGL_CORE_PROFILE,
         .glfwCreateWindow 640 480 "Window1",
         .glfwMakeContextCurrent env.createdWindow,
         .glewInit,
         .glfwSwapInterval 1]) := by
  refine ⟨?_, ?_, ?_, ?_, ?_, ?_⟩
  · intro width height
    rw [InitWindow_fst]
    simp only [decide_eq_false_iff_not, not_and_or, not_not, ne_eq]
  · intro width height h1
    simp [InitWindow, h1]
  · intro width height h1 h2
    simp [InitWindow, h1, h2]
  · intro width height h1 h2 h3
    simp [InitWindow, h1, h2, h3]
  · intro hw
    have hi : (Init env app).1 = some false := (Init_false_iff env app).mpr hw
    obtain ⟨hev, hgl, hmesh, hfile⟩ := InitWindow_events env app 640 480
    rw [Run_of_Init_false env app hi, Init_of_false env app hi]
    refine ⟨rfl, by simp [hgl], by simp [hfile], by simp [hmesh], ?_⟩
    simp only [List.filter_append, (setup_events_counts _ hev).1]
    simp [List.filter, isLoopEvent, isShouldClose, isFrameCall]
  · intro hw
    obtain ⟨hi, ht⟩ := Init_of_InitWindow_true env app hw
    refine ⟨hi, ?_⟩
    rw [InitWindow_fst] at hw
    simp only [decide_eq_true_eq, ne_eq] at hw
    obtain ⟨h1, h2, h3⟩ := hw
    rw [ht]
    simp only [hostCalls_append, hostCalls_ite, hostCalls_mesh, hostCalls_nil, ite_self,
      (createProgram_events env "shader.vert" "shader.frag").2.1]
    simp [InitWindow, h1, h2, h3]

/-- Witness for C8: `glewInit` fails after the window was created; `Run` returns
`false` without driver call, file access, `Mesh` call or loop event. -/
theorem InitWindow_failure_is_fatal_witness :
    (InitWindow glewFailEnv freshApp 640 480).1 = false ∧
    (Run glewFailEnv freshApp).1 = some false ∧
    glCalls (Run glewFailEnv freshApp).2 = [] ∧
    fileAccesses (Run glewFailEnv freshApp).2 = [] ∧
    meshCalls (Run glewFailEnv freshApp).2 = [] ∧
    (Run glewFailEnv freshApp).2.filter isLoopEvent = [] :=
  ⟨by decide, (InitWindow_failure_is_fatal glewFailEnv freshApp).2.2.2.2.1 (by decide)⟩

/-- C10, the code at the failing input: `glfwInit` and `glfwCreateWindow` succeed
and `glewInit` fails.  `Run` returns `false`; GLFW was set up and a window was
created, and `glfwTerminate` is never called. -/
theorem Run_glew_failure_skips_terminate :
    (Run glewFailEnv freshApp).1 = some false ∧
    hostCalls (Run glewFailEnv freshApp).2 =
      [.glfwSetErrorCallback, .glfwInit,
       .glfwWindowHint .GLFW_CONTEXT_VERSION_MAJOR (.num 4),
       .glfwWindowHint .GLFW_CONTEXT_VERSION_MINOR (.num 1),
       .glfwWindowHint .GLFW_OPENGL_FORWARD_COMPAT .GL_TRUE,
       .glfwWindowHint .GLFW_OPENGL_PROFILE .GLFW_OPENGL_CORE_PROFILE,
       .glfwCreateWindow 640 480 "Window1",
       .glfwMakeContextCurrent 7,
       .glewInit] ∧
    (Run glewFailEnv freshApp).2.countP isTerminate = 0 := by
  decide

end game
